import Mathlib

/-!
Shallow embedding of the gait-emotion-recognition core
(`src/feature_extractor.py`, `src/model.py`, `src/main.py`) over exact
rationals.  Python float literals are written as the exact fractions they
denote; `np.linalg.norm` is modelled by the floor square root of the squared
norm (`ratSqrt`, the definition of Mathlib's `Rat.sqrt`), which coincides
with the Euclidean norm whenever that norm is rational (in particular on
every zero vector and on every concrete input used below); none of the
properties proved here depends on the value of a square root.
-/

unseal Rat.add Rat.sub Rat.mul Rat.inv

deriving instance DecidableEq for Except

namespace GaitEmotion

/-- Largest `k` below the given bound whose square is at most `n`
(auxiliary for `natSqrt`, structurally recursive so that concrete inputs
evaluate inside the kernel). -/
def natSqrtBelow (n : ℕ) : ℕ → ℕ
  | 0 => 0
  | k + 1 => if (k + 1) * (k + 1) ≤ n then k + 1 else natSqrtBelow n k

/-- Integer (floor) square root. -/
def natSqrt (n : ℕ) : ℕ := natSqrtBelow n n

/-- Floor square root of a rational, numerator and denominator separately
(the same definition as Mathlib's `Rat.sqrt`, with the structurally
recursive `natSqrt` in place of the well-founded `Nat.sqrt`): exact
whenever the true square root is rational. -/
def ratSqrt (q : ℚ) : ℚ := mkRat (natSqrt q.num.toNat) (natSqrt q.den)

/-- A coordinate triple `(x, y, z)`, one parsed `"x,y,z"` entry. -/
abbrev Vec3 := ℚ × ℚ × ℚ

def vzero : Vec3 := (0, 0, 0)

/-- Componentwise subtraction of coordinate triples (numpy array subtraction). -/
def vsub (a b : Vec3) : Vec3 := (a.1 - b.1, a.2.1 - b.2.1, a.2.2 - b.2.2)

/-- Midpoint of two joints, `(a + b) / 2` in the source. -/
def vmid (a b : Vec3) : Vec3 :=
  ((a.1 + b.1) / 2, (a.2.1 + b.2.1) / 2, (a.2.2 + b.2.2) / 2)

/-- `np.linalg.norm` of a single 3-vector, modelled over `ℚ` as the floor
square root of the squared norm (exact whenever the Euclidean norm is
rational). -/
def mag (v : Vec3) : ℚ := ratSqrt (v.1 ^ 2 + v.2.1 ^ 2 + v.2.2 ^ 2)

/-- `np.mean` of a flat list (sum divided by length; `ℚ` division by the
length `0` of an empty list yields `0`). -/
def qmean (xs : List ℚ) : ℚ := xs.sum / (xs.length : ℚ)

/-- `np.var`: population variance, mean of squared deviations from the mean. -/
def qvar (xs : List ℚ) : ℚ := qmean (xs.map fun x => (x - qmean xs) ^ 2)

/-- `np.std`: square root of the population variance (via `ratSqrt`). -/
def qstd (xs : List ℚ) : ℚ := ratSqrt (qvar xs)

/-- `np.max` over a nonempty list (`0` for the empty list, never hit by the
source on the inputs considered here). -/
def qmax : List ℚ → ℚ
  | [] => 0
  | x :: r => r.foldl max x

/-- `np.min` over a nonempty list. -/
def qmin : List ℚ → ℚ
  | [] => 0
  | x :: r => r.foldl min x

/-- Error taxonomy of the extraction pipeline (§7 of the spec): `parseError`
for malformed coordinate entries, `shapeError` for the numpy reshape
failure when the coordinate count is not divisible by the joint count,
`insufficientData` for a derived frame count of 0, `indexError` for a
Python `IndexError` on a short coordinate list, `broadcastError` for the
numpy broadcast failure in the slice assignment `features[11:14] = ...`. -/
inductive ExtractError
  | parseError
  | shapeError
  | insufficientData
  | indexError
  | broadcastError
deriving DecidableEq, Repr

/-- `coords.reshape(n_frames, n_joints, 3)`: split a flat coordinate list
into `n_frames` frames of `n_joints` joints each. -/
def reshape (n_joints : ℕ) : ℕ → List Vec3 → List (List Vec3)
  | 0, _ => []
  | n_frames + 1, cs => cs.take n_joints :: reshape n_joints n_frames (cs.drop n_joints)

/-- `parse_skeleton_data` (feature_extractor.py lines 11–39), taking the
coordinates already parsed into rational triples (the string-splitting
loop only validates the `"x,y,z"` format and is not needed by any claim):
derives `n_frames = len(coords) // n_joints`, raises `insufficientData`
when that is 0, then reshapes — numpy's reshape raises (a `shapeError`)
exactly when the total count is not `n_frames * n_joints`. -/
def parse_skeleton_data (coords : List Vec3) (n_joints : ℕ) :
    Except ExtractError (List (List Vec3)) :=
  let n_frames := coords.length / n_joints
  if n_frames = 0 then .error .insufficientData
  else if coords.length ≠ n_frames * n_joints then .error .shapeError
  else .ok (reshape n_joints n_frames coords)

/-- `root_centering` (lines 42–53): subtract joint 0 of each frame from
every joint of that frame. -/
def root_centering (data : List (List Vec3)) : List (List Vec3) :=
  data.map fun frame => frame.map fun v => vsub v (frame.headD vzero)

/-- `ensure_min_frames` (lines 56–73): if there are fewer than `min_frames`
frames, prepend copies of the first frame until the minimum is met. -/
def ensure_min_frames (data : List (List Vec3)) (min_frames : ℕ) :
    List (List Vec3) :=
  if min_frames ≤ data.length then data
  else List.replicate (min_frames - data.length) (data.headD []) ++ data

/-- `np.diff(·, axis=0)` on a frame sequence: frame-to-frame componentwise
difference (next frame minus current frame, per joint). -/
def diffFrames (data : List (List Vec3)) : List (List Vec3) :=
  List.zipWith (fun a b => List.zipWith vsub a b) (data.drop 1) data

/-- Column `j` of a 2-D magnitude array, `arr[:, j]` (out-of-range entries
default to `0`; every use in the source is in range). -/
def column (rows : List (List ℚ)) (j : ℕ) : List ℚ :=
  rows.map fun r => r.getD j 0

/-- Per-frame axis-aligned bounding-box volume (lines 172–177):
`(xmax − xmin) * (ymax − ymin) * max(zmax − zmin, 0.001)`. -/
def bboxVolume (frame : List Vec3) : ℚ :=
  (qmax (frame.map fun v => v.1) - qmin (frame.map fun v => v.1)) *
    (qmax (frame.map fun v => v.2.1) - qmin (frame.map fun v => v.2.1)) *
    max (qmax (frame.map fun v => v.2.2) - qmin (frame.map fun v => v.2.2)) (1 / 1000)

/-- The numpy slice assignment `features[11:14] = top3_values`
(line 196): an array of shape `(3,)` is written elementwise, an array of
shape `(1,)` is broadcast to all three slots, and any other length raises
a broadcast `ValueError`. -/
def assignTop3 (feats11 : List ℚ) (top : List ℚ) :
    Except ExtractError (List ℚ) :=
  if top.length = 3 then .ok (feats11 ++ top)
  else if top.length = 1 then .ok (feats11 ++ [top.headD 0, top.headD 0, top.headD 0])
  else .error .broadcastError

/-- The body of `extract_features_from_skeleton` after parsing
(feature_extractor.py lines 113–198, named separately for proof
modularity): root-center, pad to 4 frames, differentiate three times, and
assemble the 14 features.  `np.argsort(joint_variances)[-3:]` followed by
indexing yields the last 3 values of the ascending sort of the variances,
modelled by `insertionSort` plus `drop`. -/
def assemble_features (frames : List (List Vec3)) (n_joints : ℕ) :
    Except ExtractError (List ℚ) :=
  let data := ensure_min_frames (root_centering frames) 4
  let velocity := diffFrames data
  let vel_magnitude := velocity.map (List.map mag)
  let acceleration := diffFrames velocity
  let acc_magnitude := acceleration.map (List.map mag)
  let jerk := diffFrames acceleration
  let jerk_magnitude := jerk.map (List.map mag)
  let flatVel := vel_magnitude.flatten
  let f0 := qmean flatVel
  let f1 := qmax flatVel
  let f2 := qstd flatVel
  let f3 := if acc_magnitude.flatten.length ≠ 0 then qmean acc_magnitude.flatten else 0
  let f4 := if jerk_magnitude.flatten.length ≠ 0 then qmean jerk_magnitude.flatten else 0
  let f5 := if 6 < n_joints then
      qmean (column vel_magnitude 5 ++ column vel_magnitude 6)
    else if 1 < n_joints then qmean (column vel_magnitude (n_joints - 1))
    else 0
  let f6 := if 12 < n_joints then
      qmean (column vel_magnitude 11 ++ column vel_magnitude 12)
    else if 1 < n_joints then qmean (column vel_magnitude (n_joints - 1))
    else 0
  let f7 := if 6 < n_joints then
      |qmean (column vel_magnitude 5) - qmean (column vel_magnitude 6)|
    else 0
  let f8 := qmean (data.map bboxVolume)
  let f9 := if 1 < n_joints then
      qmean (data.map fun fr => (fr.getD 0 vzero).2.1 - (fr.getD 1 vzero).2.1)
    else 0
  let f10 := if 8 < n_joints then
      qmean (data.map fun fr =>
        mag (vsub (vmid (fr.getD 1 vzero) (fr.getD 2 vzero))
                  (vmid (fr.getD 7 vzero) (fr.getD 8 vzero))))
    else 0
  let joint_variances := (List.range n_joints).map fun j => qvar (column vel_magnitude j)
  let sorted := List.insertionSort (· ≤ ·) joint_variances
  let top3 := sorted.drop (sorted.length - 3)
  assignTop3 [f0, f1, f2, f3, f4, f5, f6, f7, f8, f9, f10] top3

/-- `extract_features_from_skeleton` (feature_extractor.py lines 76–198):
parse the raw coordinates, then assemble the 14 features. -/
def extract_features_from_skeleton (coords : List Vec3) (n_joints : ℕ) :
    Except ExtractError (List ℚ) := do
  let frames ← parse_skeleton_data coords n_joints
  assemble_features frames n_joints

/-- The canonical joint-name ordering of the dictionary input form
(feature_extractor.py lines 233–238), 13 body landmarks. -/
def joint_names : List String :=
  ["nose", "left_shoulder", "right_shoulder",
   "left_elbow", "right_elbow", "left_wrist", "right_wrist",
   "left_hip", "right_hip", "left_knee", "right_knee",
   "left_ankle", "right_ankle"]

/-- One dictionary-form frame: an insertion-ordered map from joint names to
coordinate lists (Python `dict` modelled as an association list). -/
abbrev KeypointFrame := List (String × List ℚ)

/-- The fixed neutral-gait default feature vector
(feature_extractor.py lines 215–230). -/
def neutralDefault : List ℚ :=
  [1, 1 / 2, 2, 1 / 10, 3 / 10, 0, 1 / 2, 1 / 5, 1 / 10, 1 / 20, 4 / 5, 1, 1 / 2, 3 / 10]

/-- One joint of the dictionary-to-skeleton conversion (lines 241–249):
present, nonempty coordinate lists contribute `(x, y, z)` with `z`
defaulting to `0.0` when only two coordinates are given (`coords[1]` on a
one-element list is a Python `IndexError`); absent or empty entries
contribute `(0,0,0)`. -/
def jointTriple (frame : KeypointFrame) (name : String) :
    Except ExtractError Vec3 :=
  match frame.lookup name with
  | some coords =>
      if coords ≠ [] then
        if 2 ≤ coords.length then
          .ok (coords.getD 0 0, coords.getD 1 0,
               if 2 < coords.length then coords.getD 2 0 else 0)
        else .error .indexError
      else .ok vzero
  | none => .ok vzero

/-- `extract_features` (feature_extractor.py lines 201–251): with fewer
than 2 frames return the neutral default; otherwise convert every frame
to flat coordinate triples in `joint_names` order and run
`extract_features_from_skeleton` with `n_joints = 13`. -/
def extract_features (keypoints : List KeypointFrame) :
    Except ExtractError (List ℚ) :=
  if keypoints.length < 2 then .ok neutralDefault
  else do
    let skeleton_data ← keypoints.mapM fun frame =>
      joint_names.mapM fun name => jointTriple frame name
    extract_features_from_skeleton skeleton_data.flatten 13

/-! ## Classifier layer (`src/model.py`) -/

/-- The six emotion categories in declaration order (model.py line 18). -/
inductive Emotion
  | Happy
  | Sad
  | Fear
  | Disgust
  | Angry
  | Neutral
deriving DecidableEq, Repr, BEq

open Emotion

def EMOTION_CLASSES : List Emotion := [Happy, Sad, Fear, Disgust, Angry, Neutral]

/-- Result of a prediction (model.py lines 260–264): emotion label,
confidence, and the probability distribution in dictionary insertion
order. -/
structure Prediction where
  emotion : Emotion
  confidence : ℚ
  probabilities : List (Emotion × ℚ)
deriving DecidableEq, Repr

/-- A guarded score increment `score += w if cond`, as the sum of
`if`-terms the accumulating Python assignments amount to. -/
def scoreTerm (cond : Prop) [Decidable cond] (w : ℚ) : ℚ :=
  if cond then w else 0

/-- Happy score (model.py lines 161, 168–178); features are read by index
with `getD` (total in Lean, identical to Python indexing on the
14-element vectors every claim quantifies over). -/
def happy_score (f : List ℚ) : ℚ :=
  scoreTerm (f.getD 0 0 > 3 / 2 ∧ f.getD 11 0 > 6 / 5) (3 / 10) +
    scoreTerm (f.getD 4 0 > 2 / 5) (1 / 5) +
    scoreTerm (f.getD 7 0 > 3 / 10) (1 / 5) +
    scoreTerm (f.getD 1 0 > 3 / 5) (3 / 20) +
    scoreTerm (f.getD 10 0 > 7 / 10) (3 / 20)

/-- Sad score (model.py lines 180–190). -/
def sad_score (f : List ℚ) : ℚ :=
  scoreTerm (f.getD 0 0 < 4 / 5 ∧ f.getD 11 0 < 4 / 5) (3 / 10) +
    scoreTerm (f.getD 4 0 < 1 / 5) (1 / 5) +
    scoreTerm (f.getD 5 0 < -(1 / 10)) (1 / 5) +
    scoreTerm (f.getD 1 0 < 2 / 5) (3 / 20) +
    scoreTerm (f.getD 7 0 < 3 / 20) (3 / 20)

/-- Fear score (model.py lines 192–202). -/
def fear_score (f : List ℚ) : ℚ :=
  scoreTerm (9 / 10 < f.getD 0 0 ∧ f.getD 0 0 < 7 / 5 ∧ f.getD 10 0 < 13 / 20) (3 / 10) +
    scoreTerm (f.getD 6 0 < 9 / 20) (1 / 4) +
    scoreTerm (f.getD 4 0 < 3 / 10) (1 / 5) +
    scoreTerm (f.getD 11 0 > 9 / 10 ∧ f.getD 11 0 < 13 / 10) (3 / 20) +
    scoreTerm (f.getD 1 0 < 1 / 2) (1 / 10)

/-- Disgust score (model.py lines 204–214). -/
def disgust_score (f : List ℚ) : ℚ :=
  scoreTerm (f.getD 0 0 < 1 ∧ f.getD 6 0 < 2 / 5) (3 / 10) +
    scoreTerm (f.getD 5 0 < -(1 / 20)) (1 / 5) +
    scoreTerm (f.getD 4 0 < 1 / 4) (1 / 5) +
    scoreTerm (f.getD 1 0 < 9 / 20) (3 / 20) +
    scoreTerm (f.getD 7 0 < 1 / 5) (3 / 20)

/-- Angry score (model.py lines 216–226). -/
def angry_score (f : List ℚ) : ℚ :=
  scoreTerm (f.getD 0 0 > 13 / 10 ∧ f.getD 10 0 < 3 / 5) (3 / 10) +
    scoreTerm (f.getD 11 0 > 3 / 2) (1 / 5) +
    scoreTerm (f.getD 6 0 < 2 / 5) (1 / 5) +
    scoreTerm (f.getD 4 0 < 1 / 4) (3 / 20) +
    scoreTerm (f.getD 2 0 > 3) (3 / 20)

/-- Neutral score: the constant base value (model.py line 166). -/
def neutral_score : ℚ := 1 / 2

/-- The `scores` dictionary (model.py lines 229–236), in insertion order. -/
def emotionScores (f : List ℚ) : List (Emotion × ℚ) :=
  [(Happy, happy_score f), (Sad, sad_score f), (Fear, fear_score f),
   (Disgust, disgust_score f), (Angry, angry_score f), (Neutral, neutral_score)]

/-- `sum(scores.values())` (model.py line 239). -/
def totalScore (f : List ℚ) : ℚ := ((emotionScores f).map Prod.snd).sum

/-- The uniform distribution over the six categories
(model.py lines 247–254). -/
def uniformProbs : List (Emotion × ℚ) :=
  [(Happy, 1 / 6), (Sad, 1 / 6), (Fear, 1 / 6),
   (Disgust, 1 / 6), (Angry, 1 / 6), (Neutral, 1 / 6)]

/-- The `probabilities` dictionary (model.py lines 238–254): scores
normalized by their sum when positive, else the uniform distribution. -/
def ruleProbs (f : List ℚ) : List (Emotion × ℚ) :=
  if totalScore f > 0 then
    (emotionScores f).map fun p => (p.1, p.2 / totalScore f)
  else uniformProbs

/-- One step of Python's `max` with a key function: the running best is
replaced only on a strictly greater value. -/
def pyMaxStep (b y : Emotion × ℚ) : Emotion × ℚ :=
  if y.2 > b.2 then y else b

/-- Python `max(probabilities, key=probabilities.get)` (model.py
line 257): fold over the entries in insertion order, replacing the
current best only on a strictly greater value, so the first maximal key
wins.  Total via a default for the empty dictionary (never hit: the
dictionary always has six entries). -/
def maxByFirst : List (Emotion × ℚ) → Emotion × ℚ
  | [] => (Neutral, 0)
  | x :: xs => xs.foldl pyMaxStep x

/-- `_rule_based_prediction` (model.py lines 128–264). -/
def rule_based_prediction (f : List ℚ) : Prediction :=
  let probabilities := ruleProbs f
  let best := maxByFirst probabilities
  { emotion := best.1, confidence := best.2, probabilities := probabilities }

/-- An opaque loaded model artifact: the trained classifier's behavior is
external (joblib / scikit-learn, out of the core's scope); only its
interface as a per-call fallible predictor is modelled. -/
structure ModelArtifact where
  predict : List ℚ → Except String Prediction

/-- The environment `_load_model` consults: which paths exist on disk
(`os.path.exists`) and what loading a path yields (`joblib.load`, which
may fail). -/
structure LoadEnv where
  pathExists : String → Bool
  load : String → Except String ModelArtifact

/-- The classifier's state after `__init__` (model.py lines 29–58). -/
structure EmotionModel where
  model_path : String
  model : Option ModelArtifact
  use_fallback : Bool

/-- `EmotionModel.__init__` + `_load_model` (model.py lines 29–58): if the
file exists try to load it (failure sets the fallback flag), otherwise
set the fallback flag; no path raises. -/
def EmotionModel.init (env : LoadEnv) (model_path : String) : EmotionModel :=
  if env.pathExists model_path then
    match env.load model_path with
    | .ok m => { model_path := model_path, model := some m, use_fallback := false }
    | .error _ => { model_path := model_path, model := none, use_fallback := true }
  else { model_path := model_path, model := none, use_fallback := true }

/-- `predict_emotion` (model.py lines 60–82): rule-based when the fallback
flag is set, else the model-based strategy (which itself falls back to
the rule-based result when the artifact's prediction fails per-call,
model.py lines 124–126). -/
def EmotionModel.predict_emotion (m : EmotionModel) (features : List ℚ) :
    Prediction :=
  if m.use_fallback then rule_based_prediction features
  else
    match m.model with
    | some artifact =>
        match artifact.predict features with
        | .ok p => p
        | .error _ => rule_based_prediction features
    | none => rule_based_prediction features

/-! ## Confidence tier (`src/main.py` lines 213–219) -/

/-- The `confidence_level` assignment in `predict_emotion_endpoint`
(main.py lines 214–219): `"high"` when confidence exceeds 0.8, `"medium"`
when it exceeds 0.5, else `"low"`. -/
def confidence_level (confidence : ℚ) : String :=
  if confidence > 4 / 5 then "high"
  else if confidence > 1 / 2 then "medium"
  else "low"

/-- A load environment in which no path exists (used to exercise the
missing-model-file path). -/
def noFileEnv : LoadEnv :=
  { pathExists := fun _ => false, load := fun _ => .error "missing" }

/-! ## Theorems -/

/-- C2, counterexample: the claim says confidence 0.4 is assigned tier
`"medium"`, but the code (main.py lines 214–219) compares against 0.8 and
0.5, so 0.4 falls through to `"low"`. -/
theorem confidence_tier_at_04 :
    confidence_level (2 / 5) = "low" ∧ "low" ≠ "medium" := by
  constructor
  · decide
  · decide

/-- C2, amended: the tier is `"high"` exactly when confidence > 0.8,
`"medium"` exactly when 0.5 < confidence ≤ 0.8, and `"low"` exactly when
confidence ≤ 0.5; in particular 0.85 yields `"high"`, while 0.4 and 0.2
both yield `"low"`. -/
theorem confidence_tiers_amended :
    confidence_level (17 / 20) = "high" ∧ confidence_level (2 / 5) = "low" ∧
      confidence_level (1 / 5) = "low" ∧
      ∀ c : ℚ, (confidence_level c = "high" ↔ 4 / 5 < c) ∧
        (confidence_level c = "medium" ↔ 1 / 2 < c ∧ c ≤ 4 / 5) ∧
        (confidence_level c = "low" ↔ c ≤ 1 / 2) := by
  refine ⟨by decide, by decide, by decide, fun c => ?_⟩
  unfold confidence_level
  split_ifs with h1 h2
  · refine ⟨⟨fun _ => h1, fun _ => rfl⟩, ?_, ?_⟩
    · constructor
      · intro h; exact absurd h (by decide)
      · intro h; exact absurd h1 (not_lt.mpr h.2)
    · constructor
      · intro h; exact absurd h (by decide)
      · intro h; exact absurd h1 (not_lt.mpr (h.trans (by norm_num)))
  · refine ⟨?_, ⟨fun _ => ⟨h2, not_lt.mp h1⟩, fun _ => rfl⟩, ?_⟩
    · constructor
      · intro h; exact absurd h (by decide)
      · intro h; exact absurd h h1
    · constructor
      · intro h; exact absurd h (by decide)
      · intro h; exact absurd h2 (not_lt.mpr h)
  · refine ⟨?_, ?_, ⟨fun _ => not_lt.mp h2, fun _ => rfl⟩⟩
    · constructor
      · intro h; exact absurd h (by decide)
      · intro h; exact absurd h (fun hc => h1 (hc.trans_le (by norm_num)))
    · constructor
      · intro h; exact absurd h (by decide)
      · intro h; exact absurd h.1 h2

/-- C4: the rule-based strategy is deterministic — any two results among N
calls on the same feature vector have the identical emotion label,
confidence, and probability distribution. -/
theorem rule_based_deterministic (f : List ℚ) (n : ℕ) (r₁ r₂ : Prediction)
    (h₁ : r₁ ∈ (List.range n).map fun _ => rule_based_prediction f)
    (h₂ : r₂ ∈ (List.range n).map fun _ => rule_based_prediction f) :
    r₁.emotion = r₂.emotion ∧ r₁.confidence = r₂.confidence ∧
      r₁.probabilities = r₂.probabilities := by
  simp only [List.mem_map] at h₁ h₂
  obtain ⟨_, _, rfl⟩ := h₁
  obtain ⟨_, _, rfl⟩ := h₂
  exact ⟨rfl, rfl, rfl⟩

/-- C4, witness: two of three calls on the neutral default vector agree. -/
theorem rule_based_deterministic_witness :
    (rule_based_prediction neutralDefault).emotion =
        (rule_based_prediction neutralDefault).emotion ∧
      (rule_based_prediction neutralDefault).confidence =
        (rule_based_prediction neutralDefault).confidence ∧
      (rule_based_prediction neutralDefault).probabilities =
        (rule_based_prediction neutralDefault).probabilities :=
  rule_based_deterministic neutralDefault 3 _ _
    (by simp) (by simp)

/-- C6: constructing the classifier on a nonexistent model path never
raises (the constructor is total), sets the permanent fallback flag with
the model left unset, and every subsequent `predict_emotion` call returns
the (total) rule-based prediction. -/
theorem model_fallback (env : LoadEnv) (path : String) (f : List ℚ)
    (_hf : f.length = 14) (h : env.pathExists path = false) :
    (EmotionModel.init env path).use_fallback = true ∧
      (EmotionModel.init env path).model = none ∧
      (EmotionModel.init env path).predict_emotion f =
        rule_based_prediction f := by
  unfold EmotionModel.init
  rw [h]
  simp [EmotionModel.predict_emotion]

/-- C6, witness: the fallback path exercised on an environment with no
files and the neutral default vector. -/
theorem model_fallback_witness :
    (EmotionModel.init noFileEnv "models/rf_emotion_model.joblib").use_fallback = true ∧
      (EmotionModel.init noFileEnv "models/rf_emotion_model.joblib").model = none ∧
      (EmotionModel.init noFileEnv "models/rf_emotion_model.joblib").predict_emotion
          neutralDefault = rule_based_prediction neutralDefault :=
  model_fallback noFileEnv "models/rf_emotion_model.joblib" neutralDefault
    (by decide) rfl

/-- C7: any dictionary-form input with fewer than 2 frames yields the
fixed neutral default feature vector
(1.0, 0.5, 2.0, 0.1, 0.3, 0.0, 0.5, 0.2, 0.1, 0.05, 0.8, 1.0, 0.5, 0.3)
without failing. -/
theorem degenerate_default (kps : List KeypointFrame) (h : kps.length < 2) :
    extract_features kps =
      .ok [1, 1 / 2, 2, 1 / 10, 3 / 10, 0, 1 / 2, 1 / 5, 1 / 10, 1 / 20,
           4 / 5, 1, 1 / 2, 3 / 10] := by
  unfold extract_features
  rw [if_pos h]
  decide

/-- C7, witness: the empty input yields the neutral default. -/
theorem degenerate_default_witness :
    extract_features [] =
      .ok [1, 1 / 2, 2, 1 / 10, 3 / 10, 0, 1 / 2, 1 / 5, 1 / 10, 1 / 20,
           4 / 5, 1, 1 / 2, 3 / 10] :=
  degenerate_default [] (by decide)

/-- A parse failure propagates unchanged out of the extraction pipeline
(the `do`-bind on the parse step). -/
theorem extract_err (coords : List Vec3) (n : ℕ) (e : ExtractError)
    (h : parse_skeleton_data coords n = .error e) :
    extract_features_from_skeleton coords n = .error e := by
  unfold extract_features_from_skeleton
  rw [h]
  rfl

/-- C8: for any input that reshapes to exactly 1 frame, with the default
`min_frames = 4` the normalized sequence has exactly 4 frames and frames
0 through 2 each equal the recentred original frame (padding replicates
the first frame and is applied after root-centering). -/
theorem padding_one_frame (coords : List Vec3) (n : ℕ) (f : List Vec3)
    (_h : parse_skeleton_data coords n = .ok [f]) :
    (ensure_min_frames (root_centering [f]) 4).length = 4 ∧
      ∀ i < 3, (ensure_min_frames (root_centering [f]) 4).getD i [] =
        f.map fun v => vsub v (f.headD vzero) := by
  have hnorm : ensure_min_frames (root_centering [f]) 4 =
      [f.map fun v => vsub v (f.headD vzero),
       f.map fun v => vsub v (f.headD vzero),
       f.map fun v => vsub v (f.headD vzero),
       f.map fun v => vsub v (f.headD vzero)] := by
    simp [root_centering, ensure_min_frames, List.replicate]
  rw [hnorm]
  refine ⟨rfl, fun i hi => ?_⟩
  interval_cases i <;> rfl

/-- C8, witness: one frame of one joint, padded to four recentred copies. -/
theorem padding_one_frame_witness :
    (ensure_min_frames (root_centering [[((1 : ℚ), (2 : ℚ), (3 : ℚ))]]) 4).length = 4 ∧
      ∀ i < 3, (ensure_min_frames (root_centering [[((1 : ℚ), (2 : ℚ), (3 : ℚ))]]) 4).getD i [] =
        [((1 : ℚ), (2 : ℚ), (3 : ℚ))].map fun v =>
          vsub v ([((1 : ℚ), (2 : ℚ), (3 : ℚ))].headD vzero) :=
  padding_one_frame [((1 : ℚ), (2 : ℚ), (3 : ℚ))] 1 [((1 : ℚ), (2 : ℚ), (3 : ℚ))]
    (by decide)

/-- C9, counterexample: 2 coordinate triples with `n_joints = 3` is not
evenly divisible, yet extraction fails with `insufficientData` (the
derived frame count 2 // 3 = 0 is checked first), not with `shapeError`
as the claim requires for every non-divisible input. -/
theorem shape_claim_counterexample :
    ¬ (3 ∣ ([vzero, vzero] : List Vec3).length) ∧
      extract_features_from_skeleton [vzero, vzero] 3 =
        .error .insufficientData ∧
      ExtractError.insufficientData ≠ ExtractError.shapeError := by
  decide

/-- C9, amended: a coordinate count not divisible by `n_joints` is
rejected with `shapeError` whenever the derived frame count
`total // n_joints` is at least 1; a derived frame count of 0 is rejected
with `insufficientData` (taking precedence over divisibility). -/
theorem shape_rejection (coords : List Vec3) (n : ℕ) :
    (¬ (n ∣ coords.length) → 1 ≤ coords.length / n →
        extract_features_from_skeleton coords n = .error .shapeError) ∧
      (coords.length / n = 0 →
        extract_features_from_skeleton coords n = .error .insufficientData) := by
  constructor
  · intro hnd h1
    apply extract_err
    have h0 : ¬ (coords.length / n = 0) := by omega
    have hne : coords.length ≠ coords.length / n * n := fun heq =>
      hnd ⟨coords.length / n, heq.trans (Nat.mul_comm (coords.length / n) n)⟩
    simp only [parse_skeleton_data]
    rw [if_neg h0, if_pos hne]
  · intro h0
    apply extract_err
    simp [parse_skeleton_data, h0]

/-- C9 amended, witness: 10 triples with 3 joints hit `shapeError`; 1
triple with 3 joints hits `insufficientData`. -/
theorem shape_rejection_witness :
    extract_features_from_skeleton (List.replicate 10 vzero) 3 =
        .error .shapeError ∧
      extract_features_from_skeleton [vzero] 3 = .error .insufficientData :=
  ⟨(shape_rejection (List.replicate 10 vzero) 3).1 (by decide) (by decide),
   (shape_rejection [vzero] 3).2 (by decide)⟩

/-- `reshape` produces exactly the requested number of frames. -/
theorem reshape_length (nj nf : ℕ) (cs : List Vec3) :
    (reshape nj nf cs).length = nf := by
  induction nf generalizing cs with
  | zero => rfl
  | succ k ih => simp [reshape, ih]

/-- Divisible, nonempty inputs parse successfully into the reshaped
frame list. -/
theorem parse_ok (coords : List Vec3) (n : ℕ) (hd : n ∣ coords.length)
    (h1 : coords.length / n ≠ 0) :
    parse_skeleton_data coords n =
      .ok (reshape n (coords.length / n) coords) := by
  have hmul : coords.length = coords.length / n * n :=
    (Nat.div_mul_cancel hd).symm
  simp only [parse_skeleton_data]
  rw [if_neg h1, if_neg (fun hne => hne hmul)]

/-- The slice assignment yields a 14-entry vector whenever the incoming
top-variance list has length 3 or length 1. -/
theorem assignTop3_shape (feats top : List ℚ) (hf : feats.length = 11)
    (ht : top.length = 3 ∨ top.length = 1) :
    ∃ fs, assignTop3 feats top = .ok fs ∧ fs.length = 14 := by
  rcases ht with h | h
  · exact ⟨feats ++ top, by simp [assignTop3, h], by simp [hf, h]⟩
  · refine ⟨feats ++ [top.headD 0, top.headD 0, top.headD 0], ?_, by simp [hf]⟩
    simp [assignTop3, h]

/-- Feature assembly succeeds with a 14-entry vector for every frame list
whenever the joint count is 1 or at least 3 (the top-3 variance list then
has numpy-broadcastable length 1 or 3). -/
theorem assemble_features_shape (frames : List (List Vec3)) (n : ℕ)
    (h1 : 1 ≤ n) (h3 : n ≠ 2) :
    ∃ fs, assemble_features frames n = .ok fs ∧ fs.length = 14 := by
  simp only [assemble_features]
  apply assignTop3_shape
  · rfl
  · rw [List.length_drop, List.length_insertionSort, List.length_map,
      List.length_range]
    omega

/-- C1, counterexample: 4 coordinate triples with `n_joints = 2` is a
valid input (2 frames, divisible, joint count within 1..33), yet
extraction fails with the numpy broadcast error — `argsort[-3:]` yields
only the 2 per-joint variances, and `features[11:14] = ...` cannot
broadcast shape (2,) into shape (3,) — instead of returning 14 entries. -/
theorem extract_two_joints_fails :
    (1 ≤ 2 ∧ 2 ≤ 33 ∧ 2 ∣ ([vzero, vzero, vzero, vzero] : List Vec3).length ∧
        2 ≤ ([vzero, vzero, vzero, vzero] : List Vec3).length / 2 ∧
        ([vzero, vzero, vzero, vzero] : List Vec3).length / 2 ≤ 10000) ∧
      extract_features_from_skeleton [vzero, vzero, vzero, vzero] 2 =
        .error .broadcastError := by
  decide

/-- C1, amended: for every valid raw input with 2 to 10,000 frames and a
joint count in 1..33 other than 2, extraction returns a feature vector of
exactly 14 entries (each a rational, hence finite; with exactly 2 joints
the slice assignment `features[11:14]` raises a broadcast error
instead). -/
theorem extract_feature_count (coords : List Vec3) (n : ℕ)
    (h1 : 1 ≤ n) (_h2 : n ≤ 33) (h3 : n ≠ 2) (h4 : n ∣ coords.length)
    (h5 : 2 ≤ coords.length / n) (h6 : coords.length / n ≤ 10000) :
    ∃ fs, extract_features_from_skeleton coords n = .ok fs ∧
      fs.length = 14 := by
  have hp := parse_ok coords n h4 (by omega)
  unfold extract_features_from_skeleton
  rw [hp]
  exact assemble_features_shape _ n h1 h3

/-- C1 amended, witness: 2 frames of 1 joint produce 14 features. -/
theorem extract_feature_count_witness :
    ∃ fs, extract_features_from_skeleton [vzero, ((1 : ℚ), (1 : ℚ), (1 : ℚ))] 1 =
        .ok fs ∧ fs.length = 14 :=
  extract_feature_count [vzero, ((1 : ℚ), (1 : ℚ), (1 : ℚ))] 1 (by decide)
    (by decide) (by decide) (by decide) (by decide) (by decide)

/-- A guarded score term is nonnegative when its weight is. -/
theorem scoreTerm_nonneg (c : Prop) [Decidable c] (w : ℚ) (hw : 0 ≤ w) :
    0 ≤ scoreTerm c w := by
  unfold scoreTerm
  split
  · exact hw
  · exact le_refl 0

theorem happy_score_nonneg (f : List ℚ) : 0 ≤ happy_score f := by
  unfold happy_score
  refine add_nonneg (add_nonneg (add_nonneg (add_nonneg ?_ ?_) ?_) ?_) ?_ <;>
    exact scoreTerm_nonneg _ _ (by norm_num)

theorem sad_score_nonneg (f : List ℚ) : 0 ≤ sad_score f := by
  unfold sad_score
  refine add_nonneg (add_nonneg (add_nonneg (add_nonneg ?_ ?_) ?_) ?_) ?_ <;>
    exact scoreTerm_nonneg _ _ (by norm_num)

theorem fear_score_nonneg (f : List ℚ) : 0 ≤ fear_score f := by
  unfold fear_score
  refine add_nonneg (add_nonneg (add_nonneg (add_nonneg ?_ ?_) ?_) ?_) ?_ <;>
    exact scoreTerm_nonneg _ _ (by norm_num)

theorem disgust_score_nonneg (f : List ℚ) : 0 ≤ disgust_score f := by
  unfold disgust_score
  refine add_nonneg (add_nonneg (add_nonneg (add_nonneg ?_ ?_) ?_) ?_) ?_ <;>
    exact scoreTerm_nonneg _ _ (by norm_num)

theorem angry_score_nonneg (f : List ℚ) : 0 ≤ angry_score f := by
  unfold angry_score
  refine add_nonneg (add_nonneg (add_nonneg (add_nonneg ?_ ?_) ?_) ?_) ?_ <;>
    exact scoreTerm_nonneg _ _ (by norm_num)

/-- The score sum written out. -/
theorem totalScore_eq (f : List ℚ) :
    totalScore f = happy_score f + sad_score f + fear_score f +
      disgust_score f + angry_score f + 1 / 2 := by
  simp [totalScore, emotionScores, neutral_score]
  ring

/-- The Neutral base score bounds the score sum from below. -/
theorem totalScore_ge_half (f : List ℚ) : 1 / 2 ≤ totalScore f := by
  rw [totalScore_eq]
  have h1 := happy_score_nonneg f
  have h2 := sad_score_nonneg f
  have h3 := fear_score_nonneg f
  have h4 := disgust_score_nonneg f
  have h5 := angry_score_nonneg f
  linarith

theorem totalScore_pos (f : List ℚ) : 0 < totalScore f :=
  lt_of_lt_of_le (by norm_num) (totalScore_ge_half f)

/-- C3: for every 14-entry feature vector the rule-based probabilities
all lie in [0, 1], their sum is 1 (hence within the claimed 0.01
tolerance), and a zero score sum would yield the uniform distribution
(the code's explicit fallback branch). -/
theorem distribution_valid (f : List ℚ) (_h : f.length = 14) :
    (∀ p ∈ (rule_based_prediction f).probabilities, 0 ≤ p.2 ∧ p.2 ≤ 1) ∧
      ((rule_based_prediction f).probabilities.map Prod.snd).sum = 1 ∧
      |((rule_based_prediction f).probabilities.map Prod.snd).sum - 1| ≤ 1 / 100 ∧
      (totalScore f = 0 →
        (rule_based_prediction f).probabilities = uniformProbs) := by
  have hh := happy_score_nonneg f
  have hs := sad_score_nonneg f
  have hfe := fear_score_nonneg f
  have hd := disgust_score_nonneg f
  have ha := angry_score_nonneg f
  have ht : 0 < totalScore f := totalScore_pos f
  have hteq := totalScore_eq f
  have hprobs : (rule_based_prediction f).probabilities =
      (emotionScores f).map fun p => (p.1, p.2 / totalScore f) := by
    simp [rule_based_prediction, ruleProbs, ht]
  have hsum : ((rule_based_prediction f).probabilities.map Prod.snd).sum = 1 := by
    rw [hprobs]
    simp only [emotionScores, neutral_score, List.map_cons, List.map_nil,
      List.sum_cons, List.sum_nil]
    field_simp
    rw [hteq]
    ring
  refine ⟨?_, hsum, by rw [hsum]; norm_num, ?_⟩
  · intro p hp
    rw [hprobs] at hp
    simp [emotionScores, neutral_score] at hp
    rcases hp with rfl | rfl | rfl | rfl | rfl | rfl <;>
      exact ⟨div_nonneg (by first | assumption | norm_num) ht.le,
        (div_le_one ht).mpr (by rw [hteq] at *; linarith)⟩
  · intro h0
    rw [h0] at ht
    exact absurd ht (lt_irrefl 0)

/-- C3, witness: the all-zero 14-vector gives a valid distribution. -/
theorem distribution_valid_witness :
    (∀ p ∈ (rule_based_prediction (List.replicate 14 0)).probabilities,
        0 ≤ p.2 ∧ p.2 ≤ 1) ∧
      ((rule_based_prediction (List.replicate 14 0)).probabilities.map
          Prod.snd).sum = 1 ∧
      |((rule_based_prediction (List.replicate 14 0)).probabilities.map
          Prod.snd).sum - 1| ≤ 1 / 100 ∧
      (totalScore (List.replicate 14 0) = 0 →
        (rule_based_prediction (List.replicate 14 0)).probabilities =
          uniformProbs) :=
  distribution_valid (List.replicate 14 0) (by decide)

/-- Python's `max` fold returns an element of the list that is maximal,
and every entry strictly before it in iteration order has a strictly
smaller value (so the first maximum in order wins). -/
theorem foldl_pyMaxStep_first (x : Emotion × ℚ) (xs : List (Emotion × ℚ)) :
    ∃ pre post, x :: xs = pre ++ (xs.foldl pyMaxStep x) :: post ∧
      (∀ q ∈ x :: xs, q.2 ≤ (xs.foldl pyMaxStep x).2) ∧
      ∀ q ∈ pre, q.2 < (xs.foldl pyMaxStep x).2 := by
  induction xs using List.reverseRecOn with
  | nil =>
    exact ⟨[], [], rfl, by simp, by simp⟩
  | append_singleton l y ih =>
    obtain ⟨pre, post, heq, hle, hlt⟩ := ih
    rw [List.foldl_append, List.foldl_cons, List.foldl_nil]
    by_cases hy : y.2 > (l.foldl pyMaxStep x).2
    · refine ⟨x :: l, [], ?_, ?_, ?_⟩
      · rw [pyMaxStep, if_pos hy]
        simp
      · intro q hq
        rw [pyMaxStep, if_pos hy]
        rcases List.mem_cons.mp hq with rfl | hq2
        · exact le_of_lt (lt_of_le_of_lt (hle q (List.mem_cons_self q l)) hy)
        · rcases List.mem_append.mp hq2 with hq3 | hq4
          · exact le_of_lt
              (lt_of_le_of_lt (hle q (List.mem_cons_of_mem x hq3)) hy)
          · rw [List.mem_singleton.mp hq4]
      · intro q hq
        rw [pyMaxStep, if_pos hy]
        exact lt_of_le_of_lt (hle q hq) hy
    · refine ⟨pre, post ++ [y], ?_, ?_, ?_⟩
      · rw [pyMaxStep, if_neg hy]
        rw [show x :: (l ++ [y]) = (x :: l) ++ [y] from rfl, heq]
        simp
      · intro q hq
        rw [pyMaxStep, if_neg hy]
        rcases List.mem_cons.mp hq with rfl | hq2
        · exact hle q (List.mem_cons_self q l)
        · rcases List.mem_append.mp hq2 with hq3 | hq4
          · exact hle q (List.mem_cons_of_mem x hq3)
          · rw [List.mem_singleton.mp hq4]
            exact le_of_not_lt hy
      · intro q hq
        rw [pyMaxStep, if_neg hy]
        exact hlt q hq

/-- The probabilities dictionary is never empty (six entries in either
branch). -/
theorem ruleProbs_cons (f : List ℚ) :
    ∃ x xs, ruleProbs f = x :: xs := by
  unfold ruleProbs
  split
  · exact ⟨_, _, rfl⟩
  · exact ⟨_, _, rfl⟩

/-- C5: the rule-based result's emotion/confidence pair occurs in the
probabilities dictionary (whose keys are exactly the six categories in
declaration order), its probability is maximal, and every category listed
before it has a strictly smaller probability — so the returned emotion is
the argmax with ties broken by the fixed declaration order
Happy, Sad, Fear, Disgust, Angry, Neutral, and the returned confidence is
that category's probability. -/
theorem argmax_first_in_order (f : List ℚ) (_h : f.length = 14) :
    (rule_based_prediction f).probabilities.map Prod.fst = EMOTION_CLASSES ∧
      ∃ pre post,
        (rule_based_prediction f).probabilities =
          pre ++ ((rule_based_prediction f).emotion,
            (rule_based_prediction f).confidence) :: post ∧
          (∀ q ∈ (rule_based_prediction f).probabilities,
            q.2 ≤ (rule_based_prediction f).confidence) ∧
          ∀ q ∈ pre, q.2 < (rule_based_prediction f).confidence := by
  constructor
  · unfold rule_based_prediction ruleProbs
    split
    · simp [emotionScores, EMOTION_CLASSES]
    · simp [uniformProbs, EMOTION_CLASSES]
  · obtain ⟨x, xs, hx⟩ := ruleProbs_cons f
    have hpr : (rule_based_prediction f).probabilities = x :: xs := hx
    have hbest : ((rule_based_prediction f).emotion,
        (rule_based_prediction f).confidence) = xs.foldl pyMaxStep x := by
      calc ((rule_based_prediction f).emotion,
            (rule_based_prediction f).confidence)
          = maxByFirst (ruleProbs f) := rfl
        _ = maxByFirst (x :: xs) := by rw [hx]
        _ = xs.foldl pyMaxStep x := rfl
    have hconf : (rule_based_prediction f).confidence =
        (xs.foldl pyMaxStep x).2 := congrArg Prod.snd hbest
    obtain ⟨pre, post, heq, hle, hlt⟩ := foldl_pyMaxStep_first x xs
    refine ⟨pre, post, ?_, ?_, ?_⟩
    · rw [hpr, hbest, heq]
    · intro q hq
      rw [hpr] at hq
      rw [hconf]
      exact hle q hq
    · intro q hq
      rw [hconf]
      exact hlt q hq

/-- C5, witness: the argmax characterization at the all-zero 14-vector. -/
theorem argmax_first_in_order_witness :
    (rule_based_prediction (List.replicate 14 0)).probabilities.map Prod.fst =
        EMOTION_CLASSES ∧
      ∃ pre post,
        (rule_based_prediction (List.replicate 14 0)).probabilities =
          pre ++ ((rule_based_prediction (List.replicate 14 0)).emotion,
            (rule_based_prediction (List.replicate 14 0)).confidence) :: post ∧
          (∀ q ∈ (rule_based_prediction (List.replicate 14 0)).probabilities,
            q.2 ≤ (rule_based_prediction (List.replicate 14 0)).confidence) ∧
          ∀ q ∈ pre,
            q.2 < (rule_based_prediction (List.replicate 14 0)).confidence :=
  argmax_first_in_order (List.replicate 14 0) (by decide)

/-- C10: for every 14-entry feature vector the six category scores sum to
at least 0.5 (Neutral's constant base score, all other scores
nonnegative), so the sum is never zero, the uniform fallback branch is
unreachable (the probabilities are always the normalized scores), and
Neutral's reported probability is strictly positive. -/
theorem neutral_always_positive (f : List ℚ) (_h : f.length = 14) :
    1 / 2 ≤ totalScore f ∧ totalScore f ≠ 0 ∧
      (rule_based_prediction f).probabilities =
        ((emotionScores f).map fun p => (p.1, p.2 / totalScore f)) ∧
      (Emotion.Neutral, neutral_score / totalScore f) ∈
        (rule_based_prediction f).probabilities ∧
      0 < neutral_score / totalScore f := by
  have ht := totalScore_pos f
  refine ⟨totalScore_ge_half f, ne_of_gt ht, ?_, ?_, ?_⟩
  · simp [rule_based_prediction, ruleProbs, ht]
  · simp [rule_based_prediction, ruleProbs, ht, emotionScores]
  · exact div_pos (by norm_num [neutral_score]) ht

/-- C10, witness: the bound and positivity at the all-zero 14-vector. -/
theorem neutral_always_positive_witness :
    1 / 2 ≤ totalScore (List.replicate 14 0) ∧
      totalScore (List.replicate 14 0) ≠ 0 ∧
      (rule_based_prediction (List.replicate 14 0)).probabilities =
        ((emotionScores (List.replicate 14 0)).map fun p =>
          (p.1, p.2 / totalScore (List.replicate 14 0))) ∧
      (Emotion.Neutral,
          neutral_score / totalScore (List.replicate 14 0)) ∈
        (rule_based_prediction (List.replicate 14 0)).probabilities ∧
      0 < neutral_score / totalScore (List.replicate 14 0) :=
  neutral_always_positive (List.replicate 14 0) (by decide)

end GaitEmotion
